import Mathlib

/-!
Verification of the RentMind conversation-intelligence and task-dispatch core.

The Python sources are shallowly embedded:
* Python dict values become the inductive type `Val` (string / rational number /
  boolean / None); Python floats are modelled as rationals, which is exact for
  every comparison and arithmetic operation the embedded code performs.
* Python dicts become insertion-ordered association lists (`Dict`) with
  Python dict update semantics (replace in place, else append).
* Python string operations (`lower`, `strip`, `in`, `endswith`) are embedded
  as character-list operations with identical semantics on the ASCII strings
  the code manipulates.
* Calls to external collaborators (the OpenAI completion service, spaCy, the
  XGBoost / random-forest predictors, Milvus) are passed in as explicit
  oracle parameters; the control flow and data flow around them is embedded
  faithfully from the source.
* Python exceptions are modelled with `Except Unit`.
-/

namespace RentMind

/-! ## String primitives (Python `lower`, `strip`, `in`, `endswith`) -/

/-- Python `str.lower()` (ASCII). -/
def strLower (s : String) : String := String.mk (s.data.map Char.toLower)

/-- Whitespace characters stripped by Python `str.strip()`. -/
def isPyWS (c : Char) : Bool := c = ' ' || c = '\t' || c = '\n' || c = '\r'

/-- Python `str.strip()`. -/
def strStrip (s : String) : String :=
  String.mk (((s.data.dropWhile isPyWS).reverse.dropWhile isPyWS).reverse)

/-- `leadsWith needle hay`: `hay` starts with `needle`. -/
def leadsWith : List Char → List Char → Bool
  | [], _ => true
  | _ :: _, [] => false
  | a :: as, b :: bs => a = b && leadsWith as bs

/-- `hasSub hay needle`: Python `needle in hay` substring test. -/
def hasSub : List Char → List Char → Bool
  | [], needle => leadsWith needle []
  | h :: t, needle => leadsWith needle (h :: t) || hasSub t needle

/-- Python `hay_string.__contains__(needle_string)`, i.e. `needle in hay`. -/
def strHas (hay needle : String) : Bool := hasSub hay.data needle.data

/-- Python `s.endswith(suffix)`. -/
def endsStr (s suffix : String) : Bool := leadsWith suffix.data.reverse s.data.reverse

/-! ## Python values and dicts -/

/-- A Python value as stored in the candidate-field dictionaries. -/
inductive Val where
  | str (s : String)
  | num (q : ℚ)
  | bool (b : Bool)
  | none
deriving DecidableEq, Repr

/-- Insertion-ordered association list modelling a Python dict. -/
abbrev Dict := List (String × Val)

/-- Python `d[k]` / `d.get(k)` lookup (keys are unique by construction of
`dictSet`). -/
def dictLookup (d : Dict) (k : String) : Option Val :=
  match d with
  | [] => Option.none
  | (k1, v) :: t => if k1 = k then some v else dictLookup t k

/-- Python `d.get(k, default)`. -/
def dictGet (d : Dict) (k : String) (default : Val) : Val :=
  match dictLookup d k with
  | some v => v
  | Option.none => default

/-- Python `k in d`. -/
def dictContains (d : Dict) (k : String) : Bool :=
  match dictLookup d k with
  | some _ => true
  | Option.none => false

/-- Python `d[k] = v`: replace the binding in place if the key exists,
otherwise append it. -/
def dictSet (d : Dict) (k : String) (v : Val) : Dict :=
  match d with
  | [] => [(k, v)]
  | (k1, v1) :: t => if k1 = k then (k1, v) :: t else (k1, v1) :: dictSet t k v

/-- Membership of a value in the Python tuple `(None, '', 0, 0.0)` (and, by
Python numeric equality, `False`, since `False == 0`).  This is the
"empty or default" sentinel test the handlers use before merging or running. -/
def isSentinel (v : Val) : Bool :=
  v = Val.none || v = Val.str "" || v = Val.num 0 || v = Val.bool false

/-! ## tenant_screening.py: screen_tenant -/

/-- Result record of `screen_tenant`. -/
structure ScreenResult where
  risk_score : ℤ
  recommendation : String
  explanation : List String
deriving DecidableEq, Repr

/-- `screen_tenant` from `AI Assistant/tenant_screening.py`, embedded rule by
rule.  Numeric interpolation inside explanation strings uses `toString` of the
embedded values in place of Python `str`. -/
def screen_tenant (credit_score : ℤ) (income rent : ℚ)
    (employment_status : String) (eviction_record : Bool) : ScreenResult :=
  let e1 : String :=
    if credit_score < 600 then
      "Credit score " ++ toString credit_score ++ " is below minimum (600)."
    else "Credit score " ++ toString credit_score ++ " meets minimum."
  let r1 : ℤ := if credit_score < 600 then 40 else 0
  let e2 : String :=
    if income < 3 * rent then
      "Income (£" ++ toString income ++ ") is less than 3x rent (£" ++ toString rent ++ ")."
    else "Income (£" ++ toString income ++ ") is at least 3x rent (£" ++ toString rent ++ ")."
  let r2 : ℤ := if income < 3 * rent then 40 else 0
  let e3 : String :=
    if strLower employment_status ≠ "employed" then
      "Employment status is " ++ employment_status ++ "."
    else "Employment status is employed."
  let r3 : ℤ := if strLower employment_status ≠ "employed" then 10 else 0
  let e4 : String :=
    if eviction_record then "Prior eviction record found." else "No prior eviction record."
  let r4 : ℤ := if eviction_record then 30 else 0
  let risk : ℤ := r1 + r2 + r3 + r4
  let rec1 : String :=
    if risk ≥ 60 ∨ credit_score < 500 ∨ eviction_record then "Reject"
    else if risk ≥ 30 then "Review"
    else "Accept"
  { risk_score := risk, recommendation := rec1, explanation := [e1, e2, e3, e4] }

/-- C5: `screen_tenant` is a pure function of its arguments (it is embedded as
a Lean function, so determinism is definitional), and on the two example
inputs it returns exactly the stated results: risk 0 / Accept for the strong
applicant, risk ≥ 80 / Reject for the weak one. -/
theorem C5_screening_examples :
    (screen_tenant 750 5000 1200 "employed" false).risk_score = 0 ∧
    (screen_tenant 750 5000 1200 "employed" false).recommendation = "Accept" ∧
    (screen_tenant 550 2000 1200 "unemployed" true).risk_score ≥ 80 ∧
    (screen_tenant 550 2000 1200 "unemployed" true).recommendation = "Reject" := by
  have hm : ¬ ((5000:ℚ) < 3 * 1200) := by norm_num
  have hm2 : ((2000:ℚ) < 3 * 1200) := by norm_num
  have he : strLower "employed" = "employed" := by decide
  have hu : strLower "unemployed" = "unemployed" := by decide
  refine ⟨?_, ?_, ?_, ?_⟩ <;> simp [screen_tenant, hm, hm2, he, hu]

/-- C10: any applicant with a prior eviction record is rejected regardless of
credit score, income, rent and employment status, and the risk score is at
least 30. -/
theorem C10_eviction_always_reject (credit_score : ℤ) (income rent : ℚ)
    (employment_status : String) :
    (screen_tenant credit_score income rent employment_status true).recommendation
      = "Reject" ∧
    (screen_tenant credit_score income rent employment_status true).risk_score ≥ 30 := by
  unfold screen_tenant
  constructor
  · simp
  · simp only []
    split_ifs <;> omega

/-! ## conversation_intelligence.py: data model -/

/-- `IntentType` enum from `conversation_intelligence.py`. -/
inductive IntentType where
  | rent_prediction
  | tenant_screening
  | maintenance_prediction
  | greeting
  | small_talk
  | clarification
  | unknown
deriving DecidableEq, Repr

/-- `Entity` dataclass.  The Python field `end` is named `stop` here (`end` is
a Lean keyword).  `float_value` carries the result of the Python conversion
`float(str(normalized_value or text).replace(",", ""))` as oracle data
(`none` when that conversion raises `ValueError`); the conversion itself is
external string parsing, everything that consumes it is embedded. -/
structure Entity where
  text : String
  label : String
  start : ℕ
  stop : ℕ
  confidence : ℚ
  normalized_value : Option Val
  context : String
  float_value : Option ℚ
deriving DecidableEq, Repr

/-- `Intent` dataclass (the `entities` payload is irrelevant to the claims
but kept for shape; it never influences the embedded control flow). -/
structure Intent where
  itype : IntentType
  confidence : ℚ
  context : String
deriving DecidableEq, Repr

/-! ## AdvancedNERProcessor._deduplicate_entities -/

/-- The overlap test `entity.start < existing.end and entity.end > existing.start`. -/
def spansOverlap (entity existing : Entity) : Bool :=
  entity.start < existing.stop && entity.stop > existing.start

/-- One pass of the deduplication loop body over the `deduplicated` list:
scan for the first overlapping element; on a higher-confidence conflict remove
it and append `entity` at the end, on a lower-or-equal-confidence conflict
drop `entity`, and with no overlap append `entity`. -/
def dedupScan (pre rest : List Entity) (entity : Entity) : List Entity :=
  match rest with
  | [] => pre ++ [entity]
  | x :: xs =>
    if spansOverlap entity x then
      if entity.confidence > x.confidence then (pre ++ xs) ++ [entity]
      else pre ++ x :: xs
    else dedupScan (pre ++ [x]) xs entity

/-- Processing one entity against the accumulated `deduplicated` list. -/
def dedupStep (deduplicated : List Entity) (entity : Entity) : List Entity :=
  dedupScan [] deduplicated entity

/-- Stable insertion by `start` offset (Python `list.sort(key=lambda e: e.start)`
is stable; so is this insertion sort). -/
def insertByStart (e : Entity) : List Entity → List Entity
  | [] => [e]
  | x :: xs => if e.start ≤ x.start then e :: x :: xs else x :: insertByStart e xs

/-- Stable sort by `start` offset. -/
def sortByStart : List Entity → List Entity
  | [] => []
  | e :: es => insertByStart e (sortByStart es)

/-- `AdvancedNERProcessor._deduplicate_entities`. -/
def deduplicate_entities (entities : List Entity) : List Entity :=
  (sortByStart entities).foldl dedupStep []

/-- Entity with only dedup-relevant data varying. -/
def mkEnt (start stop : ℕ) (confidence : ℚ) : Entity :=
  { text := "", label := "NUMBER", start := start, stop := stop,
    confidence := confidence, normalized_value := Option.none, context := "",
    float_value := Option.none }

def ce1 : Entity := mkEnt 0 5 1
def ce2 : Entity := mkEnt 2 4 9
def ce3 : Entity := mkEnt 3 8 7

/-- C7 counterexample: `ce1` and `ce3` overlap and `ce1.confidence <
`ce3.confidence`, yet deduplication of `[ce1, ce2, ce3]` retains neither:
`ce3` loses against the even-higher-confidence `ce2` (which overlaps it and
already knocked out `ce1`).  So "for any two overlapping entities with\nc1 < c2, the c2 entity is always in the returned list" is false. -/
theorem C7_counterexample :
    spansOverlap ce3 ce1 = true ∧
    ce1.confidence < ce3.confidence ∧
    ce3 ∉ deduplicate_entities [ce1, ce2, ce3] ∧
    deduplicate_entities [ce1, ce2, ce3] = [ce2] := by
  refine ⟨by decide, by decide, by decide, by decide⟩

/-- C7 amended: when the input consists of exactly two overlapping entities
with confidences c1 < c2, deduplication returns exactly the c2 entity (the
c1 entity is discarded).  With three or more mutually overlapping entities,
only a highest-confidence survivor is kept, and an entity can be discarded
together with a lower-confidence entity it overlaps (see the
counterexample). -/
theorem C7_two_entity_dedup (e1 e2 : Entity)
    (hov : e1.start < e2.stop ∧ e1.stop > e2.start)
    (hc : e1.confidence < e2.confidence) :
    deduplicate_entities [e1, e2] = [e2] := by
  have hov21 : spansOverlap e2 e1 = true := by
    simp only [spansOverlap, Bool.and_eq_true, decide_eq_true_eq]
    exact ⟨hov.2, hov.1⟩
  have hov12 : spansOverlap e1 e2 = true := by
    simp only [spansOverlap, Bool.and_eq_true, decide_eq_true_eq]
    exact ⟨hov.1, hov.2⟩
  have hgt : e2.confidence > e1.confidence := hc
  have hngt : ¬ (e1.confidence > e2.confidence) := lt_asymm hc
  by_cases hs : e1.start ≤ e2.start
  · simp [deduplicate_entities, sortByStart, insertByStart, hs, dedupStep, dedupScan,
      hov21, hgt]
  · simp [deduplicate_entities, sortByStart, insertByStart, hs, dedupStep, dedupScan,
      hov12, hngt]

def cw1 : Entity := mkEnt 0 3 1
def cw2 : Entity := mkEnt 1 4 2

/-- Witness for `C7_two_entity_dedup` at a concrete overlapping pair. -/
theorem C7_two_entity_dedup_witness :
    (cw1.start < cw2.stop ∧ cw1.stop > cw2.start) ∧
    cw1.confidence < cw2.confidence ∧
    deduplicate_entities [cw1, cw2] = [cw2] :=
  ⟨by decide, by decide, C7_two_entity_dedup cw1 cw2 (by decide) (by decide)⟩

/-! ## ConversationalIntelligence._requires_clarification -/

/-- `ConversationalIntelligence._requires_clarification`, embedded branch by
branch.  The final `match` arm for `[]` is unreachable (an empty intent list
already returned `true` in the first branch). -/
def requires_clarification (intents : List Intent) (entities : List Entity) : Bool :=
  if intents = [] ∨ ∀ i ∈ intents, i.confidence < 0.5 then true
  else if (intents.filter (fun i => i.confidence > 0.7)).length > 1 then true
  else
    match intents with
    | primary :: _ =>
      if primary.itype = IntentType.rent_prediction ∨
         primary.itype = IntentType.tenant_screening ∨
         primary.itype = IntentType.maintenance_prediction then
        entities.isEmpty
      else false
    | [] => false

/-- C8: clarification is required iff (a) no intent reaches confidence 0.5,
or (b) at least two intents exceed confidence 0.7, or (c) the top intent is
one of the three task intents and no entities were extracted. -/
theorem C8_clarification_iff (intents : List Intent) (entities : List Entity) :
    requires_clarification intents entities = true ↔
      ((∀ i ∈ intents, i.confidence < 0.5) ∨
       2 ≤ (intents.filter (fun i => i.confidence > 0.7)).length ∨
       (∃ primary rest, intents = primary :: rest ∧
          (primary.itype = IntentType.rent_prediction ∨
           primary.itype = IntentType.tenant_screening ∨
           primary.itype = IntentType.maintenance_prediction) ∧
          entities = [])) := by
  unfold requires_clarification
  by_cases h0 : intents = [] ∨ ∀ i ∈ intents, i.confidence < 0.5
  · rw [if_pos h0]
    constructor
    · intro _
      rcases h0 with h0 | h0
      · subst h0
        exact Or.inl (by intro i hi; exact absurd hi (List.not_mem_nil i))
      · exact Or.inl h0
    · intro _; rfl
  · rw [if_neg h0]
    have hne : intents ≠ [] := fun h => h0 (Or.inl h)
    have hnall : ¬ ∀ i ∈ intents, i.confidence < 0.5 := fun h => h0 (Or.inr h)
    by_cases h1 : (intents.filter (fun i => i.confidence > 0.7)).length > 1
    · rw [if_pos h1]
      constructor
      · intro _; exact Or.inr (Or.inl h1)
      · intro _; rfl
    · rw [if_neg h1]
      rcases intents with _ | ⟨primary, rest⟩
      · exact absurd rfl hne
      · show (if _ then _ else _) = true ↔ _
        constructor
        · intro h
          by_cases htask : primary.itype = IntentType.rent_prediction ∨
              primary.itype = IntentType.tenant_screening ∨
              primary.itype = IntentType.maintenance_prediction
          · rw [if_pos htask] at h
            exact Or.inr (Or.inr ⟨primary, rest, rfl, htask, by simpa using h⟩)
          · rw [if_neg htask] at h
            exact absurd h (by simp)
        · rintro (h | h | ⟨p, r, heq, htask, hent⟩)
          · exact absurd h hnall
          · exact absurd h h1
          · cases heq
            rw [if_pos htask]
            subst hent
            rfl

/-! ## ContextAwareEntityLinker -/

/-- The ±50-character window `entity.context[max(0, start-50) : end+50]`,
lower-cased (Python slices clamp, and natural-number subtraction models
`max(0, start-50)`); the Python guard `if entity.context else ""` coincides
with slicing the empty string. -/
def contextWindow (ctx : String) (start stop : ℕ) : List Char :=
  (((ctx.data.map Char.toLower)).drop (start - 50)).take (stop + 50 - (start - 50))

/-- Python `any(word in context for word in words)`. -/
def hasAnyWord (context : List Char) (words : List String) : Bool :=
  words.any (fun word => hasSub context word.data)

/-- The field-indicator keyword chain at the top of
`_resolve_ambiguous_number` (first six branches of the source if/elif
chain, factored out so the no-indicator premise can be stated about it). -/
def window_field_guess (context : List Char) : Option String :=
  if hasAnyWord context ["bed", "bedroom", "br"] then some "BEDROOMS"
  else if hasAnyWord context ["bath", "bathroom"] then some "BATHROOMS"
  else if hasAnyWord context ["sq ft", "sqft", "square feet", "size"] then some "SIZE"
  else if hasAnyWord context ["credit", "score"] then some "credit_score"
  else if hasAnyWord context ["income", "salary", "earn"] then some "income"
  else if hasAnyWord context ["rent", "monthly", "£"] then some "rent"
  else Option.none

/-- The intent-keyed value-range heuristic at the bottom of
`_resolve_ambiguous_number`.  In the rent branch the source if-chain has no
final else, so values in [20, 100] fall through to `return None`; in the
screening branch the chain always returns when the float conversion
succeeded.  A failed conversion (`fv = none`) hits
`except (ValueError, TypeError): pass` and returns `None`. -/
def intent_range_guess (primary_intent : Option Intent) (fv : Option ℚ) :
    Option String :=
  match primary_intent with
  | some pintent =>
    if pintent.itype = IntentType.rent_prediction then
      match fv with
      | some v =>
        if v < 10 then some "BEDROOMS"
        else if v < 20 then some "BATHROOMS"
        else if v > 100 then some "SIZE"
        else Option.none
      | Option.none => Option.none
    else if pintent.itype = IntentType.tenant_screening then
      match fv with
      | some v =>
        if 300 ≤ v ∧ v ≤ 850 then some "credit_score"
        else if v > 1000 then some "income"
        else some "rent"
      | Option.none => Option.none
    else Option.none
  | Option.none => Option.none

/-- `ContextAwareEntityLinker._resolve_ambiguous_number`: the keyword window
chain first, then the intent-keyed value-range heuristic. -/
def resolve_ambiguous_number (entity : Entity) (primary_intent : Option Intent) :
    Option String :=
  match window_field_guess (contextWindow entity.context entity.start entity.stop) with
  | some f => some f
  | Option.none => intent_range_guess primary_intent entity.float_value

/-- The `label_mapping` dict lookup in `_resolve_entity_to_field`. -/
def labelMappingGet (label : String) : Option String :=
  if label = "ADDRESS" then some "address"
  else if label = "POSTCODE" then some "subdistrict_code"
  else if label = "BEDROOMS" then some "BEDROOMS"
  else if label = "BATHROOMS" then some "BATHROOMS"
  else if label = "SIZE" then some "SIZE"
  else if label = "PROPERTY_TYPE" then some "PROPERTY TYPE"
  else if label = "CREDIT_SCORE" then some "credit_score"
  else if label = "INCOME" then some "income"
  else if label = "RENT" then some "rent"
  else Option.none

/-- `ContextAwareEntityLinker._resolve_entity_to_field`.  The final synonym
loop reads `self.field_synonyms`, an attribute that
`ContextAwareEntityLinker.__init__` never defines (it lives on
`AdvancedNERProcessor`), so reaching that branch raises `AttributeError`;
this is modelled as `Except.error`.  The unused `conversation_history`
parameter is omitted. -/
def resolve_entity_to_field (entity : Entity) (primary_intent : Option Intent) :
    Except Unit (Option String) :=
  match labelMappingGet entity.label with
  | some f => Except.ok (some f)
  | Option.none =>
    if entity.label = "NUMBER" ∨ entity.label = "MONEY" then
      Except.ok (resolve_ambiguous_number entity primary_intent)
    else Except.error ()

/-- C6: for an ambiguous numeric entity (label NUMBER or MONEY) whose ±50
character window contains no field-indicator keyword, resolution follows the
value-range heuristic keyed to the primary intent: under rent-estimation,
v < 10 → BEDROOMS, 10 ≤ v < 20 → BATHROOMS, v > 100 → SIZE; under screening,
300 ≤ v ≤ 850 → credit_score, v > 1000 → income, otherwise rent. -/
theorem C6_value_range_heuristic (e : Entity) (pintent : Intent)
    (hlabel : e.label = "NUMBER" ∨ e.label = "MONEY")
    (hwin : window_field_guess (contextWindow e.context e.start e.stop) = Option.none)
    (v : ℚ) (hv : e.float_value = some v) :
    (pintent.itype = IntentType.rent_prediction → v < 10 →
      resolve_entity_to_field e (some pintent) = Except.ok (some "BEDROOMS")) ∧
    (pintent.itype = IntentType.rent_prediction → 10 ≤ v → v < 20 →
      resolve_entity_to_field e (some pintent) = Except.ok (some "BATHROOMS")) ∧
    (pintent.itype = IntentType.rent_prediction → v > 100 →
      resolve_entity_to_field e (some pintent) = Except.ok (some "SIZE")) ∧
    (pintent.itype = IntentType.tenant_screening → 300 ≤ v → v ≤ 850 →
      resolve_entity_to_field e (some pintent) = Except.ok (some "credit_score")) ∧
    (pintent.itype = IntentType.tenant_screening → v > 1000 →
      resolve_entity_to_field e (some pintent) = Except.ok (some "income")) ∧
    (pintent.itype = IntentType.tenant_screening → ¬ (300 ≤ v ∧ v ≤ 850) →
      ¬ (v > 1000) →
      resolve_entity_to_field e (some pintent) = Except.ok (some "rent")) := by
  have hmap : labelMappingGet e.label = Option.none := by
    rcases hlabel with h | h <;> rw [h] <;> decide
  have hdisp : resolve_entity_to_field e (some pintent) =
      Except.ok (resolve_ambiguous_number e (some pintent)) := by
    unfold resolve_entity_to_field
    rw [hmap]
    rcases hlabel with h | h <;> simp [h]
  have hresol : resolve_ambiguous_number e (some pintent) =
      intent_range_guess (some pintent) e.float_value := by
    unfold resolve_ambiguous_number
    rw [hwin]
  refine ⟨?_, ?_, ?_, ?_, ?_, ?_⟩
  · intro hty hlt
    rw [hdisp, hresol, hv]
    simp [intent_range_guess, hty, hlt]
  · intro hty hge hlt
    have h1 : ¬ v < 10 := not_lt.mpr hge
    rw [hdisp, hresol, hv]
    simp [intent_range_guess, hty, hlt, h1]
  · intro hty hgt
    have h1 : ¬ v < 10 := by linarith
    have h2 : ¬ v < 20 := by linarith
    rw [hdisp, hresol, hv]
    simp [intent_range_guess, hty, h1, h2, hgt]
  · intro hty hge hle
    rw [hdisp, hresol, hv]
    simp [intent_range_guess, hty, hge, hle]
  · intro hty hgt
    have h1 : ¬ (300 ≤ v ∧ v ≤ 850) := by
      rintro ⟨-, h⟩; linarith
    rw [hdisp, hresol, hv]
    simp [intent_range_guess, hty, h1, hgt]
  · intro hty hnrange hngt
    rw [hdisp, hresol, hv]
    simp [intent_range_guess, hty, hnrange, hngt]

/-- The spec scenario entity: the standalone "3" in "it has 3". -/
def scenarioEnt : Entity :=
  { text := "3", label := "NUMBER", start := 7, stop := 8, confidence := 0.8,
    normalized_value := Option.none, context := "it has 3",
    float_value := some 3 }

def scenarioIntent : Intent :=
  { itype := IntentType.rent_prediction, confidence := 0.9, context := "" }

/-- Witness for `C6_value_range_heuristic`: under rent-estimation intent the
standalone "3" in "it has 3" (no nearby keyword) resolves to BEDROOMS. -/
theorem C6_value_range_heuristic_witness :
    window_field_guess (contextWindow scenarioEnt.context scenarioEnt.start
      scenarioEnt.stop) = Option.none ∧
    resolve_entity_to_field scenarioEnt (some scenarioIntent) =
      Except.ok (some "BEDROOMS") :=
  ⟨by decide,
    (C6_value_range_heuristic scenarioEnt scenarioIntent (Or.inl rfl) (by decide)
      3 rfl).1 rfl (by decide)⟩

/-! ## Dict and string lemmas -/

theorem dictLookup_set_self (M : Dict) (k : String) (v : Val) :
    dictLookup (dictSet M k v) k = some v := by
  induction M with
  | nil => simp [dictSet, dictLookup]
  | cons kv t ih =>
    obtain ⟨k1, v1⟩ := kv
    by_cases h : k1 = k
    · subst h; simp [dictSet, dictLookup]
    · simp [dictSet, dictLookup, h, ih]

theorem dictLookup_set_other (M : Dict) (k k2 : String) (v : Val) (h : k ≠ k2) :
    dictLookup (dictSet M k v) k2 = dictLookup M k2 := by
  induction M with
  | nil => simp [dictSet, dictLookup, h]
  | cons kv t ih =>
    obtain ⟨k1, v1⟩ := kv
    by_cases h1 : k1 = k
    · subst h1; simp [dictSet, dictLookup, h]
    · simp [dictSet, dictLookup, h1, ih]

theorem leadsWith_self_append (a b : List Char) : leadsWith a (a ++ b) = true := by
  induction a with
  | nil => rfl
  | cons c t ih => simp [leadsWith, ih]

/-- The `_confidence` key attached to a field name. -/
def confKey (f : String) : String := f ++ "_confidence"

theorem endsStr_confKey (f : String) : endsStr (confKey f) "_confidence" = true := by
  unfold endsStr confKey
  have h : (f ++ "_confidence").data = f.data ++ "_confidence".data := by
    simp [String.data_append]
  rw [h, List.reverse_append]
  exact leadsWith_self_append _ _

theorem confKey_ne_of_not_conf (k f : String) (hk : endsStr k "_confidence" = false) :
    k ≠ confKey f := by
  intro h
  rw [h, endsStr_confKey f] at hk
  cases hk

theorem confKey_inj (f g : String) (h : confKey f = confKey g) : f = g := by
  unfold confKey at h
  have hd : f.data ++ "_confidence".data = g.data ++ "_confidence".data := by
    have := congrArg String.data h
    simpa [String.data_append] using this
  have : f.data = g.data := by
    exact (List.append_left_inj _).mp hd
  cases f; cases g
  exact congrArg String.mk this

/-- Strip the in-band `*_confidence` keys (the dict comprehension at the end
of `link_entities`). -/
def stripConf (d : Dict) : Dict :=
  d.filter (fun kv => endsStr kv.1 "_confidence" = false)

theorem stripConf_lookup_conf (d : Dict) (k : String)
    (hk : endsStr k "_confidence" = true) :
    dictLookup (stripConf d) k = Option.none := by
  induction d with
  | nil => rfl
  | cons kv t ih =>
    obtain ⟨k1, v1⟩ := kv
    by_cases h1 : endsStr k1 "_confidence" = false
    · have hne : k1 ≠ k := by
        intro he; subst he; rw [hk] at h1; cases h1
      simpa [stripConf, List.filter, h1, dictLookup, hne] using ih
    · simpa [stripConf, List.filter, h1, dictLookup] using ih

theorem stripConf_lookup_nonconf (d : Dict) (k : String)
    (hk : endsStr k "_confidence" = false) :
    dictLookup (stripConf d) k = dictLookup d k := by
  induction d with
  | nil => rfl
  | cons kv t ih =>
    obtain ⟨k1, v1⟩ := kv
    by_cases h1 : endsStr k1 "_confidence" = false
    · by_cases he : k1 = k
      · subst he; simp [stripConf, List.filter, h1, dictLookup]
      · simpa [stripConf, List.filter, h1, dictLookup, he] using ih
    · have hne : k1 ≠ k := by
        intro he; subst he; rw [hk] at h1; exact h1 rfl
      simpa [stripConf, List.filter, h1, dictLookup, hne] using ih

/-! ## Per-field dynamics of the link_entities merge loop -/

/-- Per-field state transition: `(o, q)` is the current value binding and the
numeric confidence recorded for the field (0 when absent); an event `(v, c)`
is a linked entity resolving to this field.  This mirrors
`if field_name not in linked_fields or entity.confidence > linked_fields.get(conf_key, 0)`. -/
def fieldFold : (Option Val × ℚ) → List (Val × ℚ) → (Option Val × ℚ)
  | st, [] => st
  | (o, q), (v, c) :: t =>
    if o = Option.none ∨ c > q then fieldFold (some v, c) t else fieldFold (o, q) t

/-- `fieldFold` once the field is present (the value slot never empties). -/
def ffp : (Val × ℚ) → List (Val × ℚ) → (Val × ℚ)
  | st, [] => st
  | (w, q), (v, c) :: t => if c > q then ffp (v, c) t else ffp (w, q) t

theorem fieldFold_some (l : List (Val × ℚ)) : ∀ (w : Val) (q : ℚ),
    fieldFold (some w, q) l = (some (ffp (w, q) l).1, (ffp (w, q) l).2) := by
  induction l with
  | nil => intro w q; rfl
  | cons vc t ih =>
    intro w q
    obtain ⟨v, c⟩ := vc
    by_cases hc : c > q
    · simp [fieldFold, ffp, hc, ih]
    · simp [fieldFold, ffp, hc, ih]

/-- Re-running the per-field fold from its own final value with a threshold
at least as high as the original start threshold reproduces the final value. -/
theorem ffp_mono_idem (l : List (Val × ℚ)) : ∀ (v : Val) (q r : ℚ), q ≤ r →
    (ffp ((ffp (v, q) l).1, r) l).1 = (ffp (v, q) l).1 := by
  induction l with
  | nil => intro v q r _; rfl
  | cons ac t ih =>
    intro v q r hqr
    obtain ⟨a, c⟩ := ac
    by_cases hc1 : c > q
    · by_cases hc2 : c > r
      · simp [ffp, hc1, hc2]
      · have hcr : c ≤ r := not_lt.mp hc2
        simp only [ffp, hc1, if_pos, if_neg hc2]
        exact ih a c r hcr
    · have hc2 : ¬ c > r := fun h => hc1 (lt_of_le_of_lt hqr h)
      simp only [ffp, if_neg hc1, if_neg hc2]
      exact ih v q r hqr

/-- Idempotence of the per-field fold: replaying the same events starting
from the produced value (with the confidence slot reset to absent) yields the
same value. -/
theorem fieldFold_idem (l : List (Val × ℚ)) (o : Option Val) :
    (fieldFold ((fieldFold (o, 0) l).1, 0) l).1 = (fieldFold (o, 0) l).1 := by
  cases o with
  | some w =>
    rw [fieldFold_some l w 0]
    rw [fieldFold_some l (ffp (w, 0) l).1 0]
    exact congrArg some (ffp_mono_idem l w 0 0 le_rfl)
  | none =>
    cases l with
    | nil => rfl
    | cons ac t =>
      obtain ⟨a, c⟩ := ac
      have h1 : fieldFold (Option.none, (0:ℚ)) ((a, c) :: t) = fieldFold (some a, c) t := by
        simp [fieldFold]
      rw [h1, fieldFold_some t a c]
      by_cases hc : c > 0
      · have h2 : fieldFold (some (ffp (a, c) t).1, (0:ℚ)) ((a, c) :: t)
            = fieldFold (some a, c) t := by
          simp [fieldFold, hc]
        rw [h2, fieldFold_some t a c]
      · have h2 : fieldFold (some (ffp (a, c) t).1, (0:ℚ)) ((a, c) :: t)
            = fieldFold (some (ffp (a, c) t).1, 0) t := by
          simp [fieldFold, hc]
        rw [h2, fieldFold_some t (ffp (a, c) t).1 0]
        have hcr : c ≤ 0 := not_lt.mp hc
        exact congrArg some (ffp_mono_idem t a c 0 hcr)

/-! ## ContextAwareEntityLinker.link_entities -/

/-- `value = entity.normalized_value if entity.normalized_value is not None
else entity.text`. -/
def entityValue (e : Entity) : Val :=
  match e.normalized_value with
  | some v => v
  | Option.none => Val.str e.text

/-- `linked_fields.get(f"{field}_confidence", 0)` read as a number.  The
non-numeric arm is unreachable in any run the idempotence theorem speaks
about: `*_confidence` keys are only ever written by the merge loop itself,
always with numeric values. -/
def getConfQ (d : Dict) (k : String) : ℚ :=
  match dictLookup d k with
  | some (Val.num q) => q
  | some _ => 0
  | Option.none => 0

/-- One iteration of the `for entity in entities` loop of `link_entities`
(raises when `_resolve_entity_to_field` raises). -/
def linkStep (p : Option Intent) (M : Dict) (e : Entity) : Except Unit Dict :=
  match resolve_entity_to_field e p with
  | Except.error u => Except.error u
  | Except.ok Option.none => Except.ok M
  | Except.ok (some f) =>
    if dictContains M f = false ∨ e.confidence > getConfQ M (confKey f) then
      Except.ok (dictSet (dictSet M f (entityValue e)) (confKey f)
        (Val.num e.confidence))
    else Except.ok M

/-- The entity loop with exception propagation. -/
def linkFold (p : Option Intent) (M : Dict) : List Entity → Except Unit Dict
  | [] => Except.ok M
  | e :: es =>
    match linkStep p M e with
    | Except.error u => Except.error u
    | Except.ok M2 => linkFold p M2 es

/-- `ContextAwareEntityLinker.link_entities`: copy `current_fields`, take
`intents[0] if intents else None` as primary intent, run the merge loop, then
strip the in-band confidence keys. -/
def link_entities (entities : List Entity) (intents : List Intent)
    (current_fields : Dict) : Except Unit Dict :=
  match linkFold intents.head? current_fields entities with
  | Except.error u => Except.error u
  | Except.ok M => Except.ok (stripConf M)

/-- Total version of `linkStep` used to state results about runs that are
known not to raise. -/
def linkStepOk (p : Option Intent) (M : Dict) (e : Entity) : Dict :=
  match resolve_entity_to_field e p with
  | Except.ok (some f) =>
    if dictContains M f = false ∨ e.confidence > getConfQ M (confKey f) then
      dictSet (dictSet M f (entityValue e)) (confKey f) (Val.num e.confidence)
    else M
  | _ => M

def linkFoldPure (p : Option Intent) (M : Dict) : List Entity → Dict
  | [] => M
  | e :: es => linkFoldPure p (linkStepOk p M e) es

theorem linkFold_allok (p : Option Intent) :
    ∀ (es : List Entity) (M M2 : Dict), linkFold p M es = Except.ok M2 →
      ∀ e ∈ es, ∃ r, resolve_entity_to_field e p = Except.ok r := by
  intro es
  induction es with
  | nil => intro M M2 _ e he; exact absurd he (List.not_mem_nil e)
  | cons a t ih =>
    intro M M2 h e he
    have hstep : ∃ M1, linkStep p M a = Except.ok M1 ∧ linkFold p M1 t = Except.ok M2 := by
      unfold linkFold at h
      cases hs : linkStep p M a with
      | error u => rw [hs] at h; cases h
      | ok M1 => rw [hs] at h; exact ⟨M1, rfl, h⟩
    obtain ⟨M1, hs, hrest⟩ := hstep
    rcases List.mem_cons.mp he with he | he
    · subst he
      unfold linkStep at hs
      cases hr : resolve_entity_to_field e p with
      | error u => rw [hr] at hs; cases hs
      | ok r => exact ⟨r, rfl⟩
    · exact ih M1 M2 hrest e he

theorem linkFold_eq_pure (p : Option Intent) :
    ∀ (es : List Entity) (M : Dict),
      (∀ e ∈ es, ∃ r, resolve_entity_to_field e p = Except.ok r) →
      linkFold p M es = Except.ok (linkFoldPure p M es) := by
  intro es
  induction es with
  | nil => intro M _; rfl
  | cons a t ih =>
    intro M hok
    obtain ⟨r, hr⟩ := hok a (List.mem_cons_self a t)
    have hstep : linkStep p M a = Except.ok (linkStepOk p M a) := by
      unfold linkStep linkStepOk
      rw [hr]
      cases r with
      | none => rfl
      | some f => by_cases hcond : dictContains M f = false ∨
          a.confidence > getConfQ M (confKey f) <;> simp [hcond]
    unfold linkFold linkFoldPure
    rw [hstep]
    exact ih (linkStepOk p M a) (fun e he => hok e (List.mem_cons_of_mem a he))

/-! Range of `_resolve_entity_to_field`: every field name it can return is a
fixed literal, none of which ends in `_confidence`. -/

theorem labelMappingGet_not_conf (l : String) (g : String)
    (h : labelMappingGet l = some g) : endsStr g "_confidence" = false := by
  unfold labelMappingGet at h
  split_ifs at h <;> cases h <;> decide

theorem window_guess_not_conf (c : List Char) (f : String)
    (h : window_field_guess c = some f) : endsStr f "_confidence" = false := by
  unfold window_field_guess at h
  split_ifs at h <;> cases h <;> decide

theorem intent_range_not_conf (p : Option Intent) (fv : Option ℚ) (f : String)
    (h : intent_range_guess p fv = some f) : endsStr f "_confidence" = false := by
  unfold intent_range_guess at h
  cases p with
  | none => cases h
  | some pintent =>
    cases fv with
    | none =>
      simp only [] at h
      split_ifs at h
    | some v =>
      simp only [] at h
      split_ifs at h <;> cases h <;> decide

theorem ambiguous_not_conf (e : Entity) (p : Option Intent) (f : String)
    (h : resolve_ambiguous_number e p = some f) : endsStr f "_confidence" = false := by
  unfold resolve_ambiguous_number at h
  cases hw : window_field_guess (contextWindow e.context e.start e.stop) with
  | some g =>
    rw [hw] at h
    injection h with h; subst h
    exact window_guess_not_conf _ _ hw
  | none =>
    rw [hw] at h
    exact intent_range_not_conf _ _ _ h

theorem resolve_field_not_conf (e : Entity) (p : Option Intent) (f : String)
    (h : resolve_entity_to_field e p = Except.ok (some f)) :
    endsStr f "_confidence" = false := by
  unfold resolve_entity_to_field at h
  cases hm : labelMappingGet e.label with
  | some g =>
    rw [hm] at h
    injection h with h; injection h with h; subst h
    exact labelMappingGet_not_conf _ _ hm
  | none =>
    rw [hm] at h
    by_cases hl : e.label = "NUMBER" ∨ e.label = "MONEY"
    · rw [if_pos hl] at h
      injection h with h
      exact ambiguous_not_conf _ _ _ h
    · rw [if_neg hl] at h
      cases h

/-- The events that touch field `k` during a merge run: the `(value,
confidence)` pairs of entities resolving to `k`, in order. -/
def keyEvents (p : Option Intent) (k : String) (es : List Entity) : List (Val × ℚ) :=
  es.filterMap (fun e =>
    match resolve_entity_to_field e p with
    | Except.ok (some f) =>
      if f = k then some (entityValue e, e.confidence) else Option.none
    | _ => Option.none)

theorem fieldFold_cons (o : Option Val) (q : ℚ) (v : Val) (c : ℚ)
    (t : List (Val × ℚ)) :
    fieldFold (o, q) ((v, c) :: t)
      = if o = Option.none ∨ c > q then fieldFold (some v, c) t
        else fieldFold (o, q) t := rfl

theorem linkStepOk_resolved (p : Option Intent) (M : Dict) (a : Entity) (f : String)
    (hr : resolve_entity_to_field a p = Except.ok (some f)) :
    linkStepOk p M a
      = if dictContains M f = false ∨ a.confidence > getConfQ M (confKey f) then
          dictSet (dictSet M f (entityValue a)) (confKey f) (Val.num a.confidence)
        else M := by
  unfold linkStepOk
  rw [hr]

theorem linkStepOk_skipped (p : Option Intent) (M : Dict) (a : Entity)
    (hr : resolve_entity_to_field a p = Except.ok Option.none ∨
          resolve_entity_to_field a p = Except.error ()) :
    linkStepOk p M a = M := by
  unfold linkStepOk
  rcases hr with hr | hr <;> rw [hr]

theorem lookup_none_of_all_nonconf (d : Dict)
    (hd : ∀ kv ∈ d, endsStr kv.1 "_confidence" = false)
    (ck : String) (hck : endsStr ck "_confidence" = true) :
    dictLookup d ck = Option.none := by
  induction d with
  | nil => rfl
  | cons kv t ih =>
    obtain ⟨k1, v1⟩ := kv
    have h1 := hd (k1, v1) (List.mem_cons_self _ _)
    have hne : k1 ≠ ck := by
      intro he; subst he; rw [hck] at h1; cases h1
    simp only [dictLookup, if_neg hne]
    exact ih (fun kv hkv => hd kv (List.mem_cons_of_mem _ hkv))

/-- Projection of the merge loop onto one non-confidence key: its final value
binding and recorded confidence are the per-field fold of its events over its
initial binding. -/
theorem linkFoldPure_proj (p : Option Intent) (k : String)
    (hk : endsStr k "_confidence" = false) :
    ∀ (es : List Entity) (M : Dict),
      dictLookup (linkFoldPure p M es) k
          = (fieldFold (dictLookup M k, getConfQ M (confKey k)) (keyEvents p k es)).1
      ∧ getConfQ (linkFoldPure p M es) (confKey k)
          = (fieldFold (dictLookup M k, getConfQ M (confKey k)) (keyEvents p k es)).2 := by
  intro es
  induction es with
  | nil => intro M; exact ⟨rfl, rfl⟩
  | cons a t ih =>
    intro M
    cases hr : resolve_entity_to_field a p with
    | error u =>
      have hstep : linkStepOk p M a = M :=
        linkStepOk_skipped p M a (Or.inr hr)
      have hev : keyEvents p k (a :: t) = keyEvents p k t := by
        simp [keyEvents, List.filterMap_cons, hr]
      unfold linkFoldPure
      rw [hstep, hev]
      exact ih M
    | ok r =>
      cases r with
      | none =>
        have hstep : linkStepOk p M a = M :=
          linkStepOk_skipped p M a (Or.inl hr)
        have hev : keyEvents p k (a :: t) = keyEvents p k t := by
          simp [keyEvents, List.filterMap_cons, hr]
        unfold linkFoldPure
        rw [hstep, hev]
        exact ih M
      | some f =>
        have hfnc : endsStr f "_confidence" = false := resolve_field_not_conf a p f hr
        have hstepeq := linkStepOk_resolved p M a f hr
        by_cases hfk : f = k
        · subst hfk
          have hev : keyEvents p f (a :: t)
              = (entityValue a, a.confidence) :: keyEvents p f t := by
            simp [keyEvents, List.filterMap_cons, hr]
          by_cases hcond : dictContains M f = false ∨
              a.confidence > getConfQ M (confKey f)
          · have hstep : linkStepOk p M a
                = dictSet (dictSet M f (entityValue a)) (confKey f)
                    (Val.num a.confidence) := by
              rw [hstepeq, if_pos hcond]
            have hfneck : f ≠ confKey f := confKey_ne_of_not_conf f f hfnc
            have hlook : dictLookup (linkStepOk p M a) f = some (entityValue a) := by
              rw [hstep, dictLookup_set_other _ _ _ _ hfneck.symm, dictLookup_set_self]
            have hconf : getConfQ (linkStepOk p M a) (confKey f) = a.confidence := by
              rw [hstep]; unfold getConfQ; rw [dictLookup_set_self]
            have hcond2 : dictLookup M f = Option.none ∨
                a.confidence > getConfQ M (confKey f) := by
              rcases hcond with h | h
              · left
                unfold dictContains at h
                cases hm : dictLookup M f with
                | none => rfl
                | some v => rw [hm] at h; cases h
              · right; exact h
            unfold linkFoldPure
            rw [hev, fieldFold_cons, if_pos hcond2]
            have := ih (linkStepOk p M a)
            rwa [hlook, hconf] at this
          · have hstep : linkStepOk p M a = M := by
              rw [hstepeq, if_neg hcond]
            have hcond2 : ¬ (dictLookup M f = Option.none ∨
                a.confidence > getConfQ M (confKey f)) := by
              intro hc
              apply hcond
              rcases hc with h | h
              · left; unfold dictContains; rw [h]
              · right; exact h
            unfold linkFoldPure
            rw [hstep, hev, fieldFold_cons, if_neg hcond2]
            exact ih M
        · have hev : keyEvents p k (a :: t) = keyEvents p k t := by
            simp [keyEvents, List.filterMap_cons, hr, hfk]
          have huntouched : dictLookup (linkStepOk p M a) k = dictLookup M k ∧
              getConfQ (linkStepOk p M a) (confKey k) = getConfQ M (confKey k) := by
            rw [hstepeq]
            by_cases hcond : dictContains M f = false ∨
                a.confidence > getConfQ M (confKey f)
            · rw [if_pos hcond]
              have h1 : f ≠ k := hfk
              have h2 : confKey f ≠ k := (confKey_ne_of_not_conf k f hk).symm
              have h3 : f ≠ confKey k := confKey_ne_of_not_conf f k hfnc
              have h4 : confKey f ≠ confKey k := fun h => hfk (confKey_inj f k h)
              constructor
              · rw [dictLookup_set_other _ _ _ _ h2, dictLookup_set_other _ _ _ _ h1]
              · unfold getConfQ
                rw [dictLookup_set_other _ _ _ _ h4, dictLookup_set_other _ _ _ _ h3]
            · rw [if_neg hcond]
              exact ⟨rfl, rfl⟩
          unfold linkFoldPure
          rw [hev]
          have := ih (linkStepOk p M a)
          rwa [huntouched.1, huntouched.2] at this

/-- C9: merging the same linked-entity set (same entities, same ranked
intents) into an accumulated field set twice in a row yields the same field
mapping as merging it once.  The accumulated set is assumed free of in-band
`*_confidence` keys, which holds for every field set the system circulates
(`link_entities` itself strips them before returning). -/
theorem C9_link_entities_idempotent (entities : List Entity) (intents : List Intent)
    (F : Dict) (hF : ∀ kv ∈ F, endsStr kv.1 "_confidence" = false)
    (G : Dict) (h1 : link_entities entities intents F = Except.ok G) :
    ∃ G2, link_entities entities intents G = Except.ok G2 ∧
      ∀ k, dictLookup G2 k = dictLookup G k := by
  have hFconf : ∀ ck, endsStr ck "_confidence" = true →
      dictLookup F ck = Option.none := fun ck hck =>
    lookup_none_of_all_nonconf F hF ck hck
  obtain ⟨M1, hM1, hG⟩ : ∃ M1, linkFold intents.head? F entities = Except.ok M1 ∧
      G = stripConf M1 := by
    unfold link_entities at h1
    cases hf : linkFold intents.head? F entities with
    | error u => rw [hf] at h1; cases h1
    | ok M => rw [hf] at h1; injection h1 with h1; exact ⟨M, rfl, h1.symm⟩
  have hok := linkFold_allok intents.head? entities F M1 hM1
  have hM1pure : M1 = linkFoldPure intents.head? F entities := by
    have := linkFold_eq_pure intents.head? entities F hok
    rw [hM1] at this
    injection this
  have hrun2 : linkFold intents.head? G entities
      = Except.ok (linkFoldPure intents.head? G entities) :=
    linkFold_eq_pure intents.head? entities G hok
  refine ⟨stripConf (linkFoldPure intents.head? G entities), ?_, ?_⟩
  · unfold link_entities
    rw [hrun2]
  · intro k
    by_cases hk : endsStr k "_confidence" = true
    · rw [stripConf_lookup_conf _ _ hk, hG, stripConf_lookup_conf _ _ hk]
    · have hk2 : endsStr k "_confidence" = false := by
        cases h : endsStr k "_confidence"
        · rfl
        · exact absurd h hk
      rw [stripConf_lookup_nonconf _ _ hk2]
      have hGk : dictLookup G k = dictLookup M1 k := by
        rw [hG, stripConf_lookup_nonconf _ _ hk2]
      have hGck : getConfQ G (confKey k) = 0 := by
        rw [hG]
        unfold getConfQ
        rw [stripConf_lookup_conf _ _ (endsStr_confKey k)]
      have hFck : getConfQ F (confKey k) = 0 := by
        unfold getConfQ
        rw [hFconf (confKey k) (endsStr_confKey k)]
      have hproj1 := linkFoldPure_proj intents.head? k hk2 entities F
      have hproj2 := linkFoldPure_proj intents.head? k hk2 entities G
      rw [hFck] at hproj1
      rw [hGck] at hproj2
      rw [hproj2.1, hGk, hM1pure, hproj1.1]
      exact fieldFold_idem (keyEvents intents.head? k entities) (dictLookup F k)

def wEnt : Entity :=
  { text := "3 bedrooms", label := "BEDROOMS", start := 0, stop := 10,
    confidence := 9, normalized_value := some (Val.num 3), context := "",
    float_value := some 3 }

def wIs : List Intent :=
  [{ itype := IntentType.rent_prediction, confidence := 9, context := "" }]

def wF : Dict := [("BEDROOMS", Val.num 2)]

def wG : Dict := [("BEDROOMS", Val.num 3)]

/-- Witness for `C9_link_entities_idempotent` on a concrete merge. -/
theorem C9_link_entities_idempotent_witness :
    (∀ kv ∈ wF, endsStr kv.1 "_confidence" = false) ∧
    link_entities [wEnt] wIs wF = Except.ok wG ∧
    ∃ G2, link_entities [wEnt] wIs wG = Except.ok G2 ∧
      ∀ k, dictLookup G2 k = dictLookup wG k :=
  ⟨by decide, by rfl,
    C9_link_entities_idempotent [wEnt] wIs wF (by decide) wG (by rfl)⟩

/-! ## chatbot_integration.py: module handlers

The handlers call two external collaborators per turn: the completion
service (field extraction and the free-form reply) and the deterministic
computation.  Extraction results and reply text enter as oracle parameters
(`ex1` for the extraction of the user message, `ex2` for the re-extraction of
the assistant reply, `reply` for the post-filtering reply text); the
deterministic computation enters as `run_model : Dict → Except Unit String`
so that a raising collaborator can be expressed.  All merging, gating and
dispatch logic is embedded from the source. -/

/-- The seven confirmation phrases of `BaseModuleHandler.needs_confirmation`
(duplicated verbatim in the rent and maintenance overrides and in
`conversational_engine`). -/
def confirmation_phrases : List String :=
  ["yes", "correct", "that's right", "yep", "confirmed", "go ahead", "proceed"]

/-- `user_message.strip().lower() in confirmation_phrases`. -/
def needs_confirmation (user_message : String) : Bool :=
  confirmation_phrases.contains (strLower (strStrip user_message))

/-- Result dict of a handler `handle` call. -/
structure HandlerResult where
  response : String
  action : String
  fields : Dict
deriving DecidableEq, Repr

/-- Python truthiness of a value. -/
def truthy (v : Val) : Bool :=
  match v with
  | Val.str s => s ≠ ""
  | Val.num q => q ≠ 0
  | Val.bool b => b
  | Val.none => false

/-- `bool(value and str(value).strip())`: for strings this is "strip is\nnonempty"; any truthy non-string renders to a nonempty, nonblank token, so
it reduces to truthiness. -/
def truthyNonblank (v : Val) : Bool :=
  match v with
  | Val.str s => strStrip s ≠ ""
  | _ => truthy v

/-! ### TenantScreeningHandler -/

def tenant_required_fields : List String :=
  ["credit_score", "income", "rent", "employment_status", "eviction_record"]

/-- Per-field defaults used when rebuilding `tenant_fields`. -/
def tenant_default (k : String) : Val :=
  if k = "credit_score" ∨ k = "income" ∨ k = "rent" then Val.num 0
  else if k = "eviction_record" then Val.bool false
  else Val.str ""

/-- First merge loop of `TenantScreeningHandler.handle`: copy the required
fields present in `last_candidate_fields`. -/
def copyReq (last : Dict) (ks : List String) (m : Dict) : Dict :=
  ks.foldl (fun m k =>
    match dictLookup last k with
    | some v => dictSet m k v
    | Option.none => m) m

/-- Second merge loop: overwrite with meaningful (non-sentinel) newly
extracted values (`if v not in (None, "", 0, 0.0, False)`). -/
def updReq (new : Dict) (ks : List String) (m : Dict) : Dict :=
  ks.foldl (fun m k =>
    if isSentinel (dictGet new k Val.none) = false then
      dictSet m k (dictGet new k Val.none)
    else m) m

/-- Third loop: rebuild with per-field defaults so every required key exists. -/
def rebuildReq (src : Dict) (ks : List String) (m : Dict) : Dict :=
  ks.foldl (fun m k => dictSet m k (dictGet src k (tenant_default k))) m

/-- The three merge loops at the top of `TenantScreeningHandler.handle`. -/
def tenantMerge (last new : Dict) : Dict :=
  rebuildReq (updReq new tenant_required_fields (copyReq last tenant_required_fields []))
    tenant_required_fields []

/-- `TenantScreeningHandler._is_field_filled`: numeric fields must be
non-sentinel, `eviction_record` only has to be non-None (False counts as
provided), `employment_status` must be truthy with nonblank text. -/
def tenant_is_field_filled (k : String) (v : Val) : Bool :=
  if k = "credit_score" ∨ k = "income" ∨ k = "rent" then isSentinel v = false
  else if k = "eviction_record" then v ≠ Val.none
  else truthyNonblank v

def tenant_all_filled (fields : Dict) : Bool :=
  tenant_required_fields.all (fun k => tenant_is_field_filled k (dictGet fields k Val.none))

/-- `TenantScreeningHandler.handle`. -/
def tenant_handle (run_model : Dict → Except Unit String) (reply : String)
    (ex1 ex2 : Dict) (user_message : String) (last : Dict) :
    Except Unit HandlerResult :=
  let tenant_fields := tenantMerge last ex1
  if needs_confirmation user_message then
    if tenant_all_filled tenant_fields then
      match run_model tenant_fields with
      | Except.ok out =>
        Except.ok { response := out, action := "screen_tenant", fields := tenant_fields }
      | Except.error u => Except.error u
    else
      Except.ok
        { response := "Sorry, I couldn't run the tenant screening script because some required information is missing. Please provide all the details (credit score, income, rent, employment status, and eviction record).",
          action := "ask_for_info", fields := tenant_fields }
  else
    let tenant_fields2 := updReq ex2 tenant_required_fields tenant_fields
    Except.ok { response := reply, action := "chat", fields := tenant_fields2 }

/-! ### RentPredictionHandler -/

def rent_required_fields : List String :=
  ["address", "subdistrict_code", "BEDROOMS", "BATHROOMS", "SIZE", "PROPERTY TYPE"]

/-- `{k: v for k, v in (last_candidate_fields or candidate_fields).items()
if k in self.required_fields}`. -/
def rent_candidate_restrict (last ex1 : Dict) : Dict :=
  (if last ≠ [] then last else ex1).filter
    (fun kv => rent_required_fields.contains kv.1)

/-- `all(f in fields and fields[f] not in (None, "", 0, 0.0) for f in
required_fields)`. -/
def rent_all_filled (fields : Dict) : Bool :=
  rent_required_fields.all (fun k =>
    dictContains fields k && isSentinel (dictGet fields k Val.none) = false)

def rent_missing_fields (fields : Dict) : List String :=
  rent_required_fields.filter (fun k =>
    !(dictContains fields k && isSentinel (dictGet fields k Val.none) = false))

/-- `RentPredictionHandler.handle`.  In the non-confirmation branch the
returned fields are exactly the re-extraction of the assistant reply
(`ex2`), with no merge against previous fields. -/
def rent_handle (run_model : Dict → Except Unit String) (reply : String)
    (ex1 ex2 : Dict) (user_message : String) (last : Dict) :
    Except Unit HandlerResult :=
  let rent_fields := rent_candidate_restrict last ex1
  if needs_confirmation user_message then
    if rent_all_filled rent_fields then
      match run_model rent_fields with
      | Except.ok out =>
        Except.ok { response := out, action := "rent_prediction", fields := rent_fields }
      | Except.error u => Except.error u
    else
      Except.ok
        { response := "I need the following details to estimate rent: "
            ++ String.intercalate ", " (rent_missing_fields rent_fields)
            ++ ". Please provide them.",
          action := "ask_for_info", fields := rent_fields }
  else
    Except.ok { response := reply, action := "chat", fields := ex2 }

/-- `RentPredictionHandler.extract_fields`, the part after the completion
call: `parse` is the Pydantic parse outcome (`some parsed` on success, `none`
on `ValidationError`), `mdMatches` and `nlMatches` are the two regex passes
of the fallback as oracle data (already canonicalised and coerced as in the
source; the natural-language pass only fills fields still missing).  On
success the parsed record replaces the accumulated fields wholesale. -/
def rent_extract_fields (parse : Option Dict)
    (mdMatches nlMatches : List (String × Val)) (last : Dict) : Dict :=
  let fields :=
    match parse with
    | some p => p
    | Option.none =>
      let f1 := mdMatches.foldl (fun m kv => dictSet m kv.1 kv.2) last
      nlMatches.foldl (fun m kv =>
        if dictContains m kv.1 then m else dictSet m kv.1 kv.2) f1
  match dictLookup fields "PROPERTY_TYPE" with
  | some v =>
    dictSet (fields.filter (fun kv => decide (kv.1 ≠ "PROPERTY_TYPE")))
      "PROPERTY TYPE" v
  | Option.none => fields

/-! ### MaintenancePredictionHandler -/

def maintenance_required_fields : List String :=
  ["address", "age_years", "last_service_years_ago", "seasonality"]

/-- `merged_fields = dict(last) ...; for k, v in candidate_fields.items():
if v not in (None, "", 0, 0.0): merged_fields[k] = v`. -/
def maintMerge (last new : Dict) : Dict :=
  new.foldl (fun m kv => if isSentinel kv.2 = false then dictSet m kv.1 kv.2 else m) last

def maint_all_filled (fields : Dict) : Bool :=
  maintenance_required_fields.all (fun k =>
    dictContains fields k && isSentinel (dictGet fields k Val.none) = false)

def maint_missing_fields (fields : Dict) : List String :=
  maintenance_required_fields.filter (fun k =>
    !(dictContains fields k && isSentinel (dictGet fields k Val.none) = false))

/-- Rendering of a value inside the markdown summary (approximates Python
`str`; no claim depends on this text). -/
def valRepr (v : Val) : String :=
  match v with
  | Val.str s => s
  | Val.num q => toString q
  | Val.bool b => if b then "True" else "False"
  | Val.none => "None"

/-- `MaintenancePredictionHandler.summarize_fields`. -/
def maintenance_summarize_fields (fields : Dict) : String :=
  fields.foldl (fun acc kv => acc ++ "- **" ++ kv.1 ++ "**: " ++ valRepr kv.2 ++ "\n")
    "**Property Information for Maintenance Prediction:**\n\n"
  ++ "\nIs this information correct? Please confirm to proceed with the maintenance risk assessment."

/-- `MaintenancePredictionHandler.handle`. -/
def maintenance_handle (run_model : Dict → Except Unit String) (reply : String)
    (ex1 ex2 : Dict) (user_message : String) (last : Dict) :
    Except Unit HandlerResult :=
  let merged := maintMerge last ex1
  if needs_confirmation user_message then
    if maint_all_filled merged then
      match run_model merged with
      | Except.ok out =>
        Except.ok { response := out, action := "maintenance_prediction", fields := merged }
      | Except.error u => Except.error u
    else
      Except.ok
        { response := "I need the following details to predict maintenance risk: "
            ++ String.intercalate ", " (maint_missing_fields merged)
            ++ ". Please provide them.",
          action := "ask_for_info", fields := merged }
  else if maint_all_filled merged then
    Except.ok
      { response := maintenance_summarize_fields merged, action := "chat",
        fields := merged }
  else
    let merged2 := maintMerge merged ex2
    Except.ok { response := reply, action := "chat", fields := merged2 }

/-- The action tag of a handler result, `none` when it raised. -/
def handlerAction (r : Except Unit HandlerResult) : Option String :=
  match r with
  | Except.ok h => some h.action
  | Except.error _ => Option.none

def cLastTenant : Dict :=
  [("credit_score", Val.num 700), ("income", Val.num 3000), ("rent", Val.num 1000),
   ("employment_status", Val.str "employed"), ("eviction_record", Val.bool false)]

def cEx1Tenant : Dict :=
  [("credit_score", Val.num 0), ("income", Val.num 0), ("rent", Val.num 0),
   ("employment_status", Val.str ""), ("eviction_record", Val.bool false)]

/-- C1 counterexample: on the message "yes" the tenant screening computation
is invoked although the required field `eviction_record` holds its
empty/default value `False` — `_is_field_filled` counts any non-None boolean
as filled, so "every required field is present with a non-empty, non-default\nvalue" is not necessary for invocation. -/
theorem C1_counterexample :
    handlerAction (tenant_handle (fun _ => Except.ok "") "" cEx1Tenant [] "yes"
      cLastTenant) = some "screen_tenant" ∧
    isSentinel (dictGet (tenantMerge cLastTenant cEx1Tenant) "eviction_record"
      Val.none) = true := by
  refine ⟨by decide, by decide⟩

/-- C1 amended: for every handler, oracle outcome and conversation state, the
deterministic computation is invoked iff the trimmed lower-cased message is
one of the seven confirmation phrases and every required field passes the
handler's own filled test: non-sentinel values for all rent and maintenance
fields and for the tenant numeric fields, nonblank `employment_status`, and
`eviction_record` merely non-None (its default False passes). -/
theorem C1_confirmation_gate (orcT orcR orcM : Dict → String) (replyT replyR replyM : String)
    (ex1T ex2T ex1R ex2R ex1M ex2M : Dict) (msg : String) (last : Dict) :
    (handlerAction (tenant_handle (fun f => Except.ok (orcT f)) replyT ex1T ex2T msg last)
        = some "screen_tenant"
      ↔ needs_confirmation msg = true ∧ tenant_all_filled (tenantMerge last ex1T) = true) ∧
    (handlerAction (rent_handle (fun f => Except.ok (orcR f)) replyR ex1R ex2R msg last)
        = some "rent_prediction"
      ↔ needs_confirmation msg = true ∧ rent_all_filled (rent_candidate_restrict last ex1R) = true) ∧
    (handlerAction (maintenance_handle (fun f => Except.ok (orcM f)) replyM ex1M ex2M msg last)
        = some "maintenance_prediction"
      ↔ needs_confirmation msg = true ∧ maint_all_filled (maintMerge last ex1M) = true) := by
  refine ⟨?_, ?_, ?_⟩
  · unfold tenant_handle handlerAction
    by_cases hc : needs_confirmation msg = true
    · by_cases hf : tenant_all_filled (tenantMerge last ex1T) = true
      · simp [hc, hf]
      · simp [hc, hf]
    · simp [hc]
  · unfold rent_handle handlerAction
    by_cases hc : needs_confirmation msg = true
    · by_cases hf : rent_all_filled (rent_candidate_restrict last ex1R) = true
      · simp [hc, hf]
      · simp [hc, hf]
    · simp [hc]
  · unfold maintenance_handle handlerAction
    by_cases hc : needs_confirmation msg = true
    · by_cases hf : maint_all_filled (maintMerge last ex1M) = true
      · simp [hc, hf]
      · simp [hc, hf]
    · by_cases hf : maint_all_filled (maintMerge last ex1M) = true
      · simp [hc, hf]
      · simp [hc, hf]

/-! ## C3: monotonic accumulation -/

theorem copyReq_notmem (last : Dict) :
    ∀ (ks : List String) (m : Dict) (k : String), k ∉ ks →
      dictLookup (copyReq last ks m) k = dictLookup m k := by
  intro ks
  induction ks with
  | nil => intro m k _; rfl
  | cons a t ih =>
    intro m k hk
    have hka : k ≠ a := fun h => hk (h ▸ List.mem_cons_self a t)
    have hkt : k ∉ t := fun h => hk (List.mem_cons_of_mem a h)
    unfold copyReq
    simp only [List.foldl_cons]
    cases hla : dictLookup last a with
    | none => exact ih m k hkt
    | some v =>
      have := ih (dictSet m a v) k hkt
      unfold copyReq at this
      rw [this, dictLookup_set_other _ _ _ _ (Ne.symm hka)]

theorem copyReq_mem (last : Dict) :
    ∀ (ks : List String) (m : Dict) (k : String) (v : Val),
      dictLookup last k = some v → k ∈ ks →
      dictLookup (copyReq last ks m) k = some v := by
  intro ks
  induction ks with
  | nil => intro m k v _ hk; exact absurd hk (List.not_mem_nil k)
  | cons a t ih =>
    intro m k v hv hk
    by_cases hkt : k ∈ t
    · unfold copyReq
      simp only [List.foldl_cons]
      cases hla : dictLookup last a with
      | none => exact ih m k v hv hkt
      | some w => exact ih (dictSet m a w) k v hv hkt
    · have hka : k = a := by
        rcases List.mem_cons.mp hk with h | h
        · exact h
        · exact absurd h hkt
      subst hka
      unfold copyReq
      simp only [List.foldl_cons, hv]
      have := copyReq_notmem last t (dictSet m k v) k hkt
      unfold copyReq at this
      rw [this, dictLookup_set_self]

theorem updReq_preserve (new : Dict) :
    ∀ (ks : List String) (m : Dict) (k : String) (v : Val),
      dictLookup m k = some v → isSentinel v = false →
      ∃ w, dictLookup (updReq new ks m) k = some w ∧ isSentinel w = false ∧
        (w = v ∨ w = dictGet new k Val.none) := by
  intro ks
  induction ks with
  | nil => intro m k v hv hns; exact ⟨v, hv, hns, Or.inl rfl⟩
  | cons a t ih =>
    intro m k v hv hns
    unfold updReq
    simp only [List.foldl_cons]
    by_cases hsa : isSentinel (dictGet new a Val.none) = false
    · rw [if_pos hsa]
      by_cases hka : a = k
      · subst hka
        have hlook : dictLookup (dictSet m a (dictGet new a Val.none)) a
            = some (dictGet new a Val.none) := dictLookup_set_self _ _ _
        obtain ⟨w, hw1, hw2, hw3⟩ := ih (dictSet m a (dictGet new a Val.none)) a
          (dictGet new a Val.none) hlook hsa
        refine ⟨w, hw1, hw2, Or.inr ?_⟩
        rcases hw3 with h | h <;> exact h
      · have hlook : dictLookup (dictSet m a (dictGet new a Val.none)) k = some v := by
          rw [dictLookup_set_other _ _ _ _ hka]; exact hv
        exact ih (dictSet m a (dictGet new a Val.none)) k v hlook hns
    · rw [if_neg hsa]
      exact ih m k v hv hns

theorem rebuildReq_notmem (src : Dict) :
    ∀ (ks : List String) (m : Dict) (k : String), k ∉ ks →
      dictLookup (rebuildReq src ks m) k = dictLookup m k := by
  intro ks
  induction ks with
  | nil => intro m k _; rfl
  | cons a t ih =>
    intro m k hk
    have hka : k ≠ a := fun h => hk (h ▸ List.mem_cons_self a t)
    have hkt : k ∉ t := fun h => hk (List.mem_cons_of_mem a h)
    unfold rebuildReq
    simp only [List.foldl_cons]
    have := ih (dictSet m a (dictGet src a (tenant_default a))) k hkt
    unfold rebuildReq at this
    rw [this, dictLookup_set_other _ _ _ _ (Ne.symm hka)]

theorem rebuildReq_mem (src : Dict) :
    ∀ (ks : List String) (m : Dict) (k : String), k ∈ ks →
      dictLookup (rebuildReq src ks m) k = some (dictGet src k (tenant_default k)) := by
  intro ks
  induction ks with
  | nil => intro m k hk; exact absurd hk (List.not_mem_nil k)
  | cons a t ih =>
    intro m k hk
    by_cases hkt : k ∈ t
    · unfold rebuildReq
      simp only [List.foldl_cons]
      exact ih _ k hkt
    · have hka : k = a := by
        rcases List.mem_cons.mp hk with h | h
        · exact h
        · exact absurd h hkt
      subst hka
      unfold rebuildReq
      simp only [List.foldl_cons]
      have := rebuildReq_notmem src t (dictSet m k (dictGet src k (tenant_default k))) k hkt
      unfold rebuildReq at this
      rw [this, dictLookup_set_self]

theorem maintMerge_preserve :
    ∀ (new : Dict) (last : Dict) (k : String) (v : Val),
      dictLookup last k = some v → isSentinel v = false →
      ∃ w, dictLookup (maintMerge last new) k = some w ∧ isSentinel w = false := by
  intro new
  induction new with
  | nil => intro last k v hv hns; exact ⟨v, hv, hns⟩
  | cons kv t ih =>
    intro last k v hv hns
    obtain ⟨k2, v2⟩ := kv
    unfold maintMerge
    simp only [List.foldl_cons]
    by_cases hs2 : isSentinel v2 = false
    · rw [if_pos hs2]
      by_cases hk2 : k2 = k
      · subst hk2
        have hlook : dictLookup (dictSet last k2 v2) k2 = some v2 :=
          dictLookup_set_self _ _ _
        exact ih (dictSet last k2 v2) k2 v2 hlook hs2
      · have hlook : dictLookup (dictSet last k2 v2) k = some v := by
          rw [dictLookup_set_other _ _ _ _ hk2]; exact hv
        exact ih (dictSet last k2 v2) k v hlook hns
    · rw [if_neg hs2]
      exact ih last k v hv hns

/-- C3 amended: the tenant and maintenance handlers accumulate monotonically
— a previously filled (non-sentinel) field is never cleared, and is only ever
replaced by a meaningful newly extracted value.  The rent handler does not
have this property: on a successful structured parse the accumulated fields
are replaced wholesale by the new parse (see the counterexample). -/
theorem C3_monotonic_accumulation (last new : Dict) (k : String) (v : Val)
    (hv : dictLookup last k = some v) (hns : isSentinel v = false) :
    (k ∈ tenant_required_fields →
      ∃ w, dictLookup (tenantMerge last new) k = some w ∧ isSentinel w = false ∧
        (w = v ∨ w = dictGet new k Val.none)) ∧
    (∃ w, dictLookup (maintMerge last new) k = some w ∧ isSentinel w = false) := by
  constructor
  · intro hk
    have h1 : dictLookup (copyReq last tenant_required_fields []) k = some v :=
      copyReq_mem last tenant_required_fields [] k v hv hk
    obtain ⟨w, hw1, hw2, hw3⟩ :=
      updReq_preserve new tenant_required_fields _ k v h1 hns
    refine ⟨w, ?_, hw2, hw3⟩
    rw [tenantMerge, rebuildReq_mem _ tenant_required_fields [] k hk]
    unfold dictGet
    rw [hw1]
  · exact maintMerge_preserve new last k v hv hns

def wLastMono : Dict := [("credit_score", Val.num 700)]

def wNewMono : Dict := [("credit_score", Val.num 0)]

/-- Witness for `C3_monotonic_accumulation`: a filled credit score of 700
survives a turn whose extraction returned the 0 sentinel for it. -/
theorem C3_monotonic_accumulation_witness :
    (∃ w, dictLookup (tenantMerge wLastMono wNewMono) "credit_score" = some w ∧
      isSentinel w = false ∧
      (w = Val.num 700 ∨ w = dictGet wNewMono "credit_score" Val.none)) ∧
    (∃ w, dictLookup (maintMerge wLastMono wNewMono) "credit_score" = some w ∧
      isSentinel w = false) :=
  ⟨(C3_monotonic_accumulation wLastMono wNewMono "credit_score" (Val.num 700)
      rfl (by decide)).1 (by decide),
   (C3_monotonic_accumulation wLastMono wNewMono "credit_score" (Val.num 700)
      rfl (by decide)).2⟩

def c3last : Dict := [("address", Val.str "221B Baker Street")]

def c3parse : Dict :=
  [("address", Val.str ""), ("subdistrict_code", Val.str ""),
   ("BEDROOMS", Val.num 0), ("BATHROOMS", Val.num 0), ("SIZE", Val.num 0),
   ("PROPERTY_TYPE", Val.str "")]

/-- The fields dict of a handler result, `[]` when it raised. -/
def handlerFields (r : Except Unit HandlerResult) : Dict :=
  match r with
  | Except.ok h => h.fields
  | Except.error _ => []

/-- C3 counterexample: in the rent handler, a turn whose structured
extraction parses successfully but does not mention the address (the
completion returned the empty-string sentinel for it) returns a field set in
which the previously filled address is cleared to the empty string. -/
theorem C3_counterexample :
    isSentinel (dictGet c3last "address" Val.none) = false ∧
    handlerAction (rent_handle (fun _ => Except.ok "") "Could you tell me the size?"
        c3last (rent_extract_fields (some c3parse) [] [] c3last)
        "it also has a garden" c3last) = some "chat" ∧
    isSentinel (dictGet (handlerFields (rent_handle (fun _ => Except.ok "")
        "Could you tell me the size?" c3last
        (rent_extract_fields (some c3parse) [] [] c3last)
        "it also has a garden" c3last)) "address" Val.none) = true := by
  refine ⟨by decide, by decide, by decide⟩

/-! ## chatbot_integration.py: conversational engines -/

/-- The explicit task-switch phrase list of `user_requests_intent_switch`. -/
def switch_phrases : List String :=
  ["forget it", "let's do", "i want to do", "switch to", "change to",
   "do rent instead", "do tenant instead", "do maintenance instead", "not this",
   "wrong task", "that's not what i meant", "i want rent", "i want tenant",
   "i want maintenance"]

def user_requests_intent_switch (user_message : String) : Bool :=
  switch_phrases.any (fun p => strHas (strLower user_message) p)

/-- Python truthiness of the `last_intent` string. -/
def optTruthy (s : Option String) : Bool :=
  match s with
  | some s => s ≠ ""
  | Option.none => false

/-- The intent-selection prefix of `conversational_engine`: re-detect on an
explicit switch request, persist a truthy uncompleted `last_intent`,
otherwise use fresh detection (`detected` is the normalised result of
`llm_detect_intent`, an external call). -/
def effective_intent (user_message : String) (detected : Option String)
    (last_intent : Option String) (intent_completed : Bool) : Option String :=
  if user_requests_intent_switch user_message then detected
  else if optTruthy last_intent && !intent_completed then last_intent
  else detected

/-- The turn result dict of the engines. -/
structure EngineResult where
  response : String
  action : String
  fields : Dict
  last_intent : Option String
  intent_completed : Bool
deriving DecidableEq, Repr

/-- The oracle inputs one handler invocation consumes (extraction results,
filtered reply text, deterministic computation). -/
structure HandlerOracles where
  run_model : Dict → Except Unit String
  reply : String
  ex1 : Dict
  ex2 : Dict

/-- Oracles for one `conversational_engine` invocation: one bundle per
handler it may construct, plus the normalised fresh-detection outcome. -/
structure EngineOracles where
  rentO : HandlerOracles
  tenantO : HandlerOracles
  maintO : HandlerOracles
  detected : Option String

def greeting_response_text : String :=
  "Hello! I'm LandlordBuddy, your AI assistant for property management. I can help you with rent pricing, tenant screening, and maintenance predictions.\n\nWhat would you like to do today?"

def unknown_request_text : String :=
  "I'm sorry, I couldn't clearly understand your request. You may be using different wording or asking for something else.\n\nHere are the tasks I can help you with:\n- **Rent Prediction**: Estimate the rent for your property.\n- **Tenant Screening**: Assess a tenant's suitability.\n- **Maintenance Prediction**: Predict potential maintenance needs.\n\nPlease specify which of these you'd like help with, and provide any relevant details."

/-- `conversational_engine` (the fallback engine).  The recomputed
`is_confirmation` local in the source is unused for routing and omitted. -/
def conversational_engine (o : EngineOracles) (user_message : String)
    (last : Dict) (last_intent : Option String) (intent_completed : Bool) :
    Except Unit EngineResult :=
  let intent := effective_intent user_message o.detected last_intent intent_completed
  if intent = some "greeting" then
    Except.ok
      { response := greeting_response_text, action := "greeting", fields := [],
        last_intent := Option.none, intent_completed := true }
  else if intent = some "rent_prediction" then
    match rent_handle o.rentO.run_model o.rentO.reply o.rentO.ex1 o.rentO.ex2 user_message last with
    | Except.error u => Except.error u
    | Except.ok r =>
      let completed : Bool := r.action == "screen_tenant" || r.action == "rent_prediction"
      Except.ok
        { response := r.response, action := r.action, fields := r.fields,
          last_intent := if completed then Option.none else intent,
          intent_completed := completed }
  else if intent = some "tenant_screening" then
    match tenant_handle o.tenantO.run_model o.tenantO.reply o.tenantO.ex1 o.tenantO.ex2 user_message last with
    | Except.error u => Except.error u
    | Except.ok r =>
      let completed : Bool := r.action == "screen_tenant"
      Except.ok
        { response := r.response, action := r.action, fields := r.fields,
          last_intent := if completed then Option.none else intent,
          intent_completed := completed }
  else if intent = some "maintenance_prediction" then
    match maintenance_handle o.maintO.run_model o.maintO.reply o.maintO.ex1 o.maintO.ex2 user_message last with
    | Except.error u => Except.error u
    | Except.ok r =>
      let completed : Bool := r.action == "maintenance_prediction" || r.action == "maintenance_alerts"
      Except.ok
        { response := r.response, action := r.action, fields := r.fields,
          last_intent := if completed then Option.none else intent,
          intent_completed := completed }
  else
    Except.ok
      { response := unknown_request_text, action := "clarify_intent", fields := [],
        last_intent := Option.none, intent_completed := true }

/-- The analysis object produced by
`ConversationalIntelligence.analyze_message` for the current turn, as the
enhanced engine consumes it. -/
structure Analysis where
  primary : IntentType
  requires_clarification : Bool
  clarification_message : String
  intents : List (IntentType × ℚ)
  entities_dict : Dict

/-- Presentation oracles of the enhanced engine: the random greeting choice,
the small-talk reply, and the formatted multi-intent question. -/
structure EnhancedTexts where
  greet : String
  small : String
  multi : String

/-- Python `d.update(upd)`. -/
def dictUpdate (d upd : Dict) : Dict :=
  upd.foldl (fun m kv => dictSet m kv.1 kv.2) d

/-- `len(analysis.intents) > 1 and all(i.confidence > 0.7 for i in
analysis.intents[:2])`. -/
def multi_intent_cond (a : Analysis) : Bool :=
  a.intents.length > 1 && (a.intents.take 2).all (fun ic => ic.2 > 0.7)

/-- The body of `enhanced_conversational_engine` (its `try` block).  The
Milvus store and memory-retrieval calls only extend the history handed to
the extraction oracles and are absorbed by them. -/
def enhanced_body (a : Analysis) (tx : EnhancedTexts) (ho : EngineOracles)
    (user_message : String) (last : Dict) (last_intent : Option String)
    (intent_completed : Bool) : Except Unit EngineResult :=
  if a.primary = IntentType.greeting then
    Except.ok
      { response := tx.greet, action := "greeting", fields := last,
        last_intent := Option.none, intent_completed := true }
  else if a.primary = IntentType.small_talk then
    Except.ok
      { response := tx.small, action := "small_talk", fields := last,
        last_intent := Option.none, intent_completed := true }
  else if a.requires_clarification then
    Except.ok
      { response := a.clarification_message, action := "clarify_intent", fields := last,
        last_intent := Option.none, intent_completed := true }
  else if multi_intent_cond a then
    Except.ok
      { response := tx.multi, action := "clarify_intent", fields := last,
        last_intent := Option.none, intent_completed := true }
  else if a.primary = IntentType.rent_prediction then
    match rent_handle ho.rentO.run_model ho.rentO.reply ho.rentO.ex1 ho.rentO.ex2 user_message
        (dictUpdate last a.entities_dict) with
    | Except.error u => Except.error u
    | Except.ok r =>
      Except.ok
        { response := r.response, action := r.action, fields := r.fields,
          last_intent := if r.action = "rent_prediction" then Option.none
            else some "rent_prediction",
          intent_completed := r.action == "rent_prediction" }
  else if a.primary = IntentType.tenant_screening then
    match tenant_handle ho.tenantO.run_model ho.tenantO.reply ho.tenantO.ex1 ho.tenantO.ex2 user_message
        (dictUpdate last a.entities_dict) with
    | Except.error u => Except.error u
    | Except.ok r =>
      Except.ok
        { response := r.response, action := r.action, fields := r.fields,
          last_intent := if r.action = "screen_tenant" then Option.none
            else some "tenant_screening",
          intent_completed := r.action == "screen_tenant" }
  else if a.primary = IntentType.maintenance_prediction then
    match maintenance_handle ho.maintO.run_model ho.maintO.reply ho.maintO.ex1 ho.maintO.ex2 user_message
        (dictUpdate last a.entities_dict) with
    | Except.error u => Except.error u
    | Except.ok r =>
      Except.ok
        { response := r.response, action := r.action, fields := r.fields,
          last_intent := if r.action = "maintenance_prediction" then Option.none
            else some "maintenance_prediction",
          intent_completed := r.action == "maintenance_prediction" }
  else if optTruthy last_intent && !intent_completed then
    if last_intent = some "rent_prediction" then
      match rent_handle ho.rentO.run_model ho.rentO.reply ho.rentO.ex1 ho.rentO.ex2 user_message
          (dictUpdate last a.entities_dict) with
      | Except.error u => Except.error u
      | Except.ok r =>
        Except.ok
          { response := r.response, action := r.action, fields := r.fields,
            last_intent := if r.action = "rent_prediction" then Option.none
              else last_intent,
            intent_completed := r.action == "rent_prediction" }
    else if last_intent = some "tenant_screening" then
      match tenant_handle ho.tenantO.run_model ho.tenantO.reply ho.tenantO.ex1 ho.tenantO.ex2 user_message
          (dictUpdate last a.entities_dict) with
      | Except.error u => Except.error u
      | Except.ok r =>
        Except.ok
          { response := r.response, action := r.action, fields := r.fields,
            last_intent := if r.action = "screen_tenant" then Option.none
              else last_intent,
            intent_completed := r.action == "screen_tenant" }
    else if last_intent = some "maintenance_prediction" then
      match maintenance_handle ho.maintO.run_model ho.maintO.reply ho.maintO.ex1 ho.maintO.ex2 user_message
          (dictUpdate last a.entities_dict) with
      | Except.error u => Except.error u
      | Except.ok r =>
        Except.ok
          { response := r.response, action := r.action, fields := r.fields,
            last_intent := if r.action = "maintenance_prediction" then Option.none
              else last_intent,
            intent_completed := r.action == "maintenance_prediction" }
    else
      Except.ok
        { response := "I'm not sure how to continue. What would you like me to help you with?",
          action := "clarify_intent", fields := [],
          last_intent := Option.none, intent_completed := true }
  else
    Except.ok
      { response := unknown_request_text, action := "clarify_intent", fields := [],
        last_intent := Option.none, intent_completed := true }

/-- `enhanced_conversational_engine`: the body under
`try ... except: return conversational_engine(...)`.  An exception raised by
the fallback call inside the `except` block escapes. -/
def enhanced_engine (a : Analysis) (tx : EnhancedTexts) (ho fo : EngineOracles)
    (user_message : String) (last : Dict) (last_intent : Option String)
    (intent_completed : Bool) : Except Unit EngineResult :=
  match enhanced_body a tx ho user_message last last_intent intent_completed with
  | Except.ok r => Except.ok r
  | Except.error _ => conversational_engine fo user_message last last_intent intent_completed

/-- `handle_conversation`: try the enhanced engine, fall back to the original
engine on exception; an exception raised by that fallback escapes to the
transport layer. -/
def handle_conversation (a : Analysis) (tx : EnhancedTexts)
    (ho fo1 fo2 : EngineOracles) (user_message : String) (last : Dict)
    (last_intent : Option String) (intent_completed : Bool) :
    Except Unit EngineResult :=
  match enhanced_engine a tx ho fo1 user_message last last_intent intent_completed with
  | Except.ok r => Except.ok r
  | Except.error _ => conversational_engine fo2 user_message last last_intent intent_completed

/-! ## C2: intent persistence -/

/-- C2 amended: in the fallback `conversational_engine` the effective intent
equals the uncompleted active task whenever the message is not a task-switch
phrase, regardless of fresh detection.  The enhanced engine does not have
this property: it routes on the fresh analysis first (see the
counterexample). -/
theorem C2_intent_persistence_fallback (msg : String) (detected : Option String)
    (t : String) (hswitch : user_requests_intent_switch msg = false) (ht : t ≠ "") :
    effective_intent msg detected (some t) false = some t := by
  simp [effective_intent, hswitch, optTruthy, ht]

/-- Witness for `C2_intent_persistence_fallback`: an active rent task
persists over a message that fresh detection would classify as screening. -/
theorem C2_intent_persistence_fallback_witness :
    user_requests_intent_switch "the flat is in Camden" = false ∧
    effective_intent "the flat is in Camden" (some "tenant_screening")
      (some "rent_prediction") false = some "rent_prediction" :=
  ⟨by decide, C2_intent_persistence_fallback "the flat is in Camden"
    (some "tenant_screening") "rent_prediction" (by decide) (by decide)⟩

def c2analysis : Analysis :=
  { primary := IntentType.tenant_screening, requires_clarification := false,
    clarification_message := "", intents := [(IntentType.tenant_screening, 1)],
    entities_dict := [] }

def c2texts : EnhancedTexts :=
  { greet := "", small := "", multi := "" }

def cTenantOracles : HandlerOracles :=
  { run_model := fun _ => Except.ok "", reply := "Please give me the credit score.",
    ex1 := cEx1Tenant, ex2 := cEx1Tenant }

def cIdleOracles : HandlerOracles :=
  { run_model := fun _ => Except.ok "", reply := "", ex1 := [], ex2 := [] }

def c2engineO : EngineOracles :=
  { rentO := cIdleOracles, tenantO := cTenantOracles, maintO := cIdleOracles,
    detected := Option.none }

/-- The `last_intent` continuity slot of an engine result (`none` also when
the engine raised). -/
def engineLastIntent (r : Except Unit EngineResult) : Option String :=
  match r with
  | Except.ok h => h.last_intent
  | Except.error _ => Option.none

/-- The action tag of an engine result. -/
def engineAction (r : Except Unit EngineResult) : Option String :=
  match r with
  | Except.ok h => some h.action
  | Except.error _ => Option.none

/-- C2 counterexample: with an uncompleted active rent task and a message
that matches no task-switch phrase, the enhanced engine routes the turn to
the freshly detected tenant-screening handler (the continuity slot comes
back as tenant_screening, not the active rent task), so the effective intent
does not equal the active task. -/
theorem C2_counterexample :
    user_requests_intent_switch "please check this tenant now" = false ∧
    engineAction (enhanced_engine c2analysis c2texts c2engineO c2engineO
      "please check this tenant now" [] (some "rent_prediction") false) = some "chat" ∧
    engineLastIntent (enhanced_engine c2analysis c2texts c2engineO c2engineO
      "please check this tenant now" [] (some "rent_prediction") false)
      = some "tenant_screening" := by
  refine ⟨by decide, by decide, by decide⟩

/-! ## consumers.py: transport receive step (for C4) -/

/-- `get_emergency_response` from `backend/chatbot/consumers.py`. -/
def get_emergency_response (user_message : String) : HandlerResult :=
  let msg := strLower (strStrip user_message)
  if ["hi", "hello", "hey", "good morning", "good afternoon", "good evening"].contains msg then
    { response := "Hello! I'm LandlordBuddy, your AI assistant for property management. I can help you with rent pricing, tenant screening, and maintenance predictions.\n\nWhat would you like to do today?",
      action := "greeting", fields := [] }
  else if ["rent", "price", "estimate"].any (fun w => strHas msg w) then
    { response := "I can help you with rent estimation! Please provide me with:\n- Property address\n- Number of bedrooms\n- Number of bathrooms\n- Property size (in sq ft)\n- Property type (e.g., apartment, house)",
      action := "chat", fields := [] }
  else if ["tenant", "screen", "applicant"].any (fun w => strHas msg w) then
    { response := "I can help you screen tenants! Please provide:\n- Credit score (300-850)\n- Monthly income\n- Desired rent amount\n- Employment status\n- Eviction history (yes/no)",
      action := "chat", fields := [] }
  else if ["maintenance", "repair", "fix"].any (fun w => strHas msg w) then
    { response := "I can help predict maintenance needs! Please tell me:\n- Property address\n- Property age (in years)\n- Years since last maintenance\n- Current season",
      action := "chat", fields := [] }
  else
    { response := "Thank you for your message: \"" ++ user_message ++ "\"\n\nI can help you with:\n\u2022 **Rent Estimation** - Get market rent predictions\n\u2022 **Tenant Screening** - Assess applicant suitability\n\u2022 **Maintenance Prediction** - Predict maintenance needs\n\nWhich would you like help with?",
      action := "chat", fields := [] }

/-- The engine-call portion of `ChatConsumer.receive`: on an engine
exception the transport falls back to `get_emergency_response`; the reply
text and the updated session `candidate_fields` are returned. -/
def receive_step (engine_result : Except Unit EngineResult) (user_message : String)
    (candidate_fields : Dict) : String × Dict :=
  match engine_result with
  | Except.ok r => (r.response, dictUpdate candidate_fields r.fields)
  | Except.error _ =>
    ((get_emergency_response user_message).response,
     dictUpdate candidate_fields (get_emergency_response user_message).fields)

theorem get_emergency_response_fields (user_message : String) :
    (get_emergency_response user_message).fields = [] := by
  unfold get_emergency_response
  dsimp only
  split_ifs <;> rfl

/-! ## C4: failure of the deterministic computation -/

theorem tenant_handle_raises (run_model : Dict → Except Unit String) (reply : String)
    (ex1 ex2 : Dict) (msg : String) (last : Dict)
    (hconf : needs_confirmation msg = true)
    (hfill : tenant_all_filled (tenantMerge last ex1) = true)
    (hrun : run_model (tenantMerge last ex1) = Except.error ()) :
    tenant_handle run_model reply ex1 ex2 msg last = Except.error () := by
  simp [tenant_handle, hconf, hfill, hrun]

theorem conversational_engine_tenant_raises (o : EngineOracles) (msg : String)
    (last : Dict)
    (hswitch : user_requests_intent_switch msg = false)
    (hconf : needs_confirmation msg = true)
    (hfill : tenant_all_filled (tenantMerge last o.tenantO.ex1) = true)
    (hrun : o.tenantO.run_model (tenantMerge last o.tenantO.ex1) = Except.error ()) :
    conversational_engine o msg last (some "tenant_screening") false
      = Except.error () := by
  have hint : effective_intent msg o.detected (some "tenant_screening") false
      = some "tenant_screening" := by
    simp [effective_intent, hswitch, optTruthy]
  have hth := tenant_handle_raises o.tenantO.run_model o.tenantO.reply o.tenantO.ex1
    o.tenantO.ex2 msg last hconf hfill hrun
  simp [conversational_engine, hint, hth]

theorem enhanced_body_tenant_raises (a : Analysis) (tx : EnhancedTexts)
    (ho : EngineOracles) (msg : String) (last : Dict) (li : Option String) (ic : Bool)
    (hprim : a.primary = IntentType.tenant_screening)
    (hclar : a.requires_clarification = false)
    (hmulti : multi_intent_cond a = false)
    (hconf : needs_confirmation msg = true)
    (hfill : tenant_all_filled
      (tenantMerge (dictUpdate last a.entities_dict) ho.tenantO.ex1) = true)
    (hrun : ho.tenantO.run_model
      (tenantMerge (dictUpdate last a.entities_dict) ho.tenantO.ex1)
        = Except.error ()) :
    enhanced_body a tx ho msg last li ic = Except.error () := by
  have hth := tenant_handle_raises ho.tenantO.run_model ho.tenantO.reply ho.tenantO.ex1
    ho.tenantO.ex2 msg (dictUpdate last a.entities_dict) hconf hfill hrun
  simp [enhanced_body, hprim, hclar, hmulti, hth]

/-- C4 amended: when the tenant screening computation raises on a confirmed,
fully-collected turn, the enhanced engine's blanket handler re-attempts via
the fallback engine, `handle_conversation` retries once more, and the
exception then propagates out of the dialogue core.  The WebSocket transport
catches it, replies with the canned emergency message, and leaves the
session's accumulated candidate_fields unchanged. -/
theorem C4_exception_escapes_core (a : Analysis) (tx : EnhancedTexts)
    (ho fo1 fo2 : EngineOracles) (msg : String) (last flds : Dict)
    (hprim : a.primary = IntentType.tenant_screening)
    (hclar : a.requires_clarification = false)
    (hmulti : multi_intent_cond a = false)
    (hconf : needs_confirmation msg = true)
    (hswitch : user_requests_intent_switch msg = false)
    (hrunH : ho.tenantO.run_model
      (tenantMerge (dictUpdate last a.entities_dict) ho.tenantO.ex1) = Except.error ())
    (hrun1 : fo1.tenantO.run_model (tenantMerge last fo1.tenantO.ex1) = Except.error ())
    (hrun2 : fo2.tenantO.run_model (tenantMerge last fo2.tenantO.ex1) = Except.error ())
    (hfillH : tenant_all_filled
      (tenantMerge (dictUpdate last a.entities_dict) ho.tenantO.ex1) = true)
    (hfill1 : tenant_all_filled (tenantMerge last fo1.tenantO.ex1) = true)
    (hfill2 : tenant_all_filled (tenantMerge last fo2.tenantO.ex1) = true) :
    handle_conversation a tx ho fo1 fo2 msg last (some "tenant_screening") false
      = Except.error () ∧
    receive_step (handle_conversation a tx ho fo1 fo2 msg last
      (some "tenant_screening") false) msg flds
      = ((get_emergency_response msg).response, flds) := by
  have hbody := enhanced_body_tenant_raises a tx ho msg last
    (some "tenant_screening") false hprim hclar hmulti hconf hfillH hrunH
  have hconv1 := conversational_engine_tenant_raises fo1 msg last hswitch hconf
    hfill1 hrun1
  have hconv2 := conversational_engine_tenant_raises fo2 msg last hswitch hconf
    hfill2 hrun2
  have henh : enhanced_engine a tx ho fo1 msg last (some "tenant_screening") false
      = Except.error () := by
    unfold enhanced_engine
    rw [hbody, hconv1]
  have hall : handle_conversation a tx ho fo1 fo2 msg last
      (some "tenant_screening") false = Except.error () := by
    unfold handle_conversation
    rw [henh, hconv2]
  refine ⟨hall, ?_⟩
  rw [hall]
  unfold receive_step
  rw [get_emergency_response_fields]
  rfl

def c4tenantOracles : HandlerOracles :=
  { run_model := fun _ => Except.error (), reply := "", ex1 := cEx1Tenant, ex2 := [] }

def c4engineO : EngineOracles :=
  { rentO := cIdleOracles, tenantO := c4tenantOracles, maintO := cIdleOracles,
    detected := some "tenant_screening" }

def c4analysis : Analysis :=
  { primary := IntentType.tenant_screening, requires_clarification := false,
    clarification_message := "", intents := [(IntentType.tenant_screening, 1)],
    entities_dict := [] }

/-- C4 counterexample: with a confirmed, fully-collected tenant turn whose
screening computation raises, `handle_conversation` (the dialogue core) does
not catch the exception and return an apology — the exception propagates out
of the core. -/
theorem C4_counterexample :
    handle_conversation c4analysis c2texts c4engineO c4engineO c4engineO "yes"
      cLastTenant (some "tenant_screening") false = Except.error () := rfl

/-- Witness for `C4_exception_escapes_core` on the concrete raising
scenario. -/
theorem C4_exception_escapes_core_witness :
    handle_conversation c4analysis c2texts c4engineO c4engineO c4engineO "yes"
      cLastTenant (some "tenant_screening") false = Except.error () ∧
    receive_step (handle_conversation c4analysis c2texts c4engineO c4engineO c4engineO
      "yes" cLastTenant (some "tenant_screening") false) "yes" cLastTenant
      = ((get_emergency_response "yes").response, cLastTenant) :=
  C4_exception_escapes_core c4analysis c2texts c4engineO c4engineO c4engineO "yes"
    cLastTenant cLastTenant (by decide) (by decide) (by decide) (by decide)
    (by decide) rfl rfl rfl (by decide) (by decide) (by decide)

end RentMind
